import Mathlib

/-!
Verification of the forecast resolver of `weather_server.py` (repository
`reankelt/weather`).

The embedding below models the Python module shallowly:

* JSON values (`Json`) stand for the Python objects obtained from
  `response.json()`: `None`, booleans, numbers, strings, lists and dicts.
  Dicts are association lists; upstream JSON objects have unique keys.
  JSON numbers are modelled as rationals (no arithmetic is ever performed
  on them by the source, only parsing and pass-through, so the binary
  floating point representation is irrelevant to the claims).
* Python exceptions are the `PyExc` type; fallible Python expressions are
  embedded as `Except PyExc _` values.  `excStr` models `str(e)` for the
  exceptions that can occur here; the exact wording of `TypeError` /
  `ValueError` messages (which Python varies by operation) is collapsed
  to a fixed rendering, since no claim pins those strings.
* The three upstream services are an environment (`Upstream`) mapping
  each outgoing request, identified by its parameters, to the raw HTTP
  outcome (`HttpOutcome`).  `make_request` is the module's fetch helper:
  it never raises and yields parsed JSON only on HTTP 200 with a
  decodable body, matching lines 29-42 of the source.
* `float(...)` on a string is modelled by a decimal parser
  (`pyParseFloat`); exponent notation, `inf` and `nan` are not modelled —
  no claim exercises them.
* `str(...)` on list/dict values inside the f-string for the location
  name is approximated (`pyStr`); every claim only exercises it on
  strings and integers.
-/

namespace Weather

/-- Parsed JSON / Python value. -/
inductive Json where
  | null
  | bool (b : Bool)
  | num (q : ℚ)
  | str (s : String)
  | arr (items : List Json)
  | obj (fields : List (String × Json))

/-- Python exceptions that the embedded code can raise. -/
inductive PyExc where
  | keyError (k : String)
  | indexError
  | typeError
  | attributeError
  | valueError
deriving DecidableEq

/-- Models Python `str(e)` for a caught exception `e` (up to the exact
wording of `TypeError`/`ValueError`/`IndexError` texts, which no claim
pins down). `str(KeyError(k))` really is the repr of the key. -/
def excStr : PyExc → String
  | .keyError k => "\x27" ++ k ++ "\x27"
  | .indexError => "list index out of range"
  | .typeError => "TypeError"
  | .attributeError => "AttributeError"
  | .valueError => "ValueError"

/-- Python truthiness of a JSON value (`if data:`). -/
def Json.truthy : Json → Bool
  | .null => false
  | .bool b => b
  | .num q => q != 0
  | .str s => s != ""
  | .arr [] => false
  | .arr (_ :: _) => true
  | .obj [] => false
  | .obj (_ :: _) => true

/-- Truthiness of an optional value (`None` is falsy). -/
def truthyOpt : Option Json → Bool
  | none => false
  | some j => j.truthy

/-- Python `len(x)` — defined for strings, lists and dicts, `TypeError`
otherwise. -/
def Json.pyLen : Json → Except PyExc Nat
  | .str s => .ok s.length
  | .arr items => .ok items.length
  | .obj fields => .ok fields.length
  | _ => .error .typeError

/-- Dict-style key lookup used for theorem statements about result
payloads (first binding wins, as in a Python dict built once). -/
def Json.lookup : Json → String → Option Json
  | .obj fields, k => (fields.find? (fun p => p.1 == k)).map (fun p => p.2)
  | _, _ => none

/-- Top-level keys of a JSON object (`[]` for non-objects). -/
def Json.keys : Json → List String
  | .obj fields => fields.map (fun p => p.1)
  | _ => []

/-- Python subscript with a string key, `x["k"]`: dict lookup raising
`KeyError`, `TypeError` on every other receiver. -/
def Json.pySubscr : Json → String → Except PyExc Json
  | .obj fields, k =>
    match fields.find? (fun p => p.1 == k) with
    | some p => .ok p.2
    | none => .error (.keyError k)
  | _, _ => .error .typeError

/-- Python subscript with the integer `0`, `x[0]`: list indexing, string
indexing, `KeyError` on a dict (whose keys here are strings, so the int
key `0` is absent), `TypeError` otherwise. -/
def Json.pySubscrIdx0 : Json → Except PyExc Json
  | .arr (x :: _) => .ok x
  | .arr [] => .error .indexError
  | .str s =>
    match s.data with
    | c :: _ => .ok (.str ⟨[c]⟩)
    | [] => .error .indexError
  | .obj _ => .error (.keyError "0")
  | _ => .error .typeError

/-- Python `x.get(k, d)` — only dicts have `.get`; anything else raises
`AttributeError`. -/
def Json.pyGet (j : Json) (k : String) (d : Json) : Except PyExc Json :=
  match j with
  | .obj fields =>
    match fields.find? (fun p => p.1 == k) with
    | some p => .ok p.2
    | none => .ok d
  | _ => .error .attributeError

/-- Does the list of characters `pre` start the list `l`? -/
def startsWithL : List Char → List Char → Bool
  | [], _ => true
  | _ :: _, [] => false
  | a :: as, b :: bs => a == b && startsWithL as bs

/-- Substring containment on character lists (Python `needle in s`). -/
def strIn (needle : List Char) : List Char → Bool
  | [] => startsWithL needle []
  | c :: rest => startsWithL needle (c :: rest) || strIn needle rest

/-- Is this JSON value the given string? (Python `==` between a `str`
and a non-`str` is `False`.) -/
def Json.isStrEq (k : String) : Json → Bool
  | .str s => s == k
  | _ => false

/-- Python `k in x` for a string `k`: key test on dicts, membership on
lists, substring test on strings, `TypeError` otherwise. -/
def pyContains (j : Json) (k : String) : Except PyExc Bool :=
  match j with
  | .obj fields => .ok (fields.any (fun p => p.1 == k))
  | .arr items => .ok (items.any (Json.isStrEq k))
  | .str s => .ok (strIn k.data s.data)
  | _ => .error .typeError

/-- Numeric value of a digit list (most significant first). -/
def natOfDigits (l : List Char) : Nat :=
  l.foldl (fun a c => a * 10 + (c.toNat - 48)) 0

/-- Python `float(s)` on a string: optional surrounding whitespace,
optional sign, decimal digits with at most one point and at least one
digit.  Exponent notation and `inf`/`nan` are not modelled (no claim
exercises them). -/
def pyParseFloat (s : String) : Option ℚ :=
  let l := ((s.data.dropWhile Char.isWhitespace).reverse.dropWhile Char.isWhitespace).reverse
  let sgn : ℚ := match l with
    | '-' :: _ => -1
    | _ => 1
  let l2 : List Char := match l with
    | '-' :: rest => rest
    | '+' :: rest => rest
    | _ => l
  let ip := l2.takeWhile Char.isDigit
  let rest := l2.dropWhile Char.isDigit
  match rest with
  | [] => if ip.isEmpty then none else some (sgn * (natOfDigits ip : ℚ))
  | '.' :: fr =>
    if fr.all Char.isDigit && (!ip.isEmpty || !fr.isEmpty) then
      some (sgn * ((natOfDigits ip : ℚ) + (natOfDigits fr : ℚ) / ((10 : ℚ) ^ fr.length)))
    else none
  | _ => none

/-- Python `float(x)` on an arbitrary value. -/
def pyFloat : Json → Except PyExc ℚ
  | .num q => .ok q
  | .bool b => .ok (if b then 1 else 0)
  | .str s =>
    match pyParseFloat s with
    | some q => .ok q
    | none => .error .valueError
  | .null => .error .typeError
  | .arr _ => .error .typeError
  | .obj _ => .error .typeError

/-- Rendering of a rational in `str()` position.  Integral values print
as Python ints do; non-integral values are approximated (the claims only
exercise strings and integral numbers in `str()` position). -/
def pyStrNum (q : ℚ) : String :=
  if q.den == 1 then toString q.num else toString q.num ++ "/" ++ toString q.den

/-- Python `str(x)` as used inside the f-strings of the source.
Container rendering is approximated; every claim path only passes
strings (and integral numbers for temperatures) through it. -/
def pyStr : Json → String
  | .str s => s
  | .num q => pyStrNum q
  | .bool b => if b then "True" else "False"
  | .null => "None"
  | .arr items => "<list:" ++ toString items.length ++ ">"
  | .obj fields => "<dict:" ++ toString fields.length ++ ">"

/-- Python slicing `x[:5]`, yielding the elements to iterate over:
list prefix, string prefix (as one-character strings), `TypeError`
otherwise. -/
def pySlice5 : Json → Except PyExc (List Json)
  | .arr items => .ok (items.take 5)
  | .str s => .ok ((s.data.take 5).map (fun c => Json.str ⟨[c]⟩))
  | _ => .error .typeError

/-- Raw outcome of one HTTP GET issued by `make_request`: either a
response with a status code and the result of decoding its body as JSON
(`none` = decode failure), or an exception from the transport layer
(network failure, timeout, invalid URL, ...). -/
inductive HttpOutcome where
  | response (status : Nat) (body : Option Json)
  | netError

/-- `make_request` (weather_server.py lines 29-42): returns the parsed
body on HTTP 200, `None` on any other status, and swallows every
exception (transport errors and JSON-decode errors alike) into `None`.
It never raises. -/
def make_request : HttpOutcome → Option Json
  | .response status body => if status = 200 then body else none
  | .netError => none

/-- One upstream request, identified by the parameters from which the
source builds the URL: the geocoding query string, the `points/lat,lon`
pair, or the forecast URL taken from the points response. -/
inductive Req where
  | geocodeReq (location : String)
  | pointsReq (lat lon : ℚ)
  | forecastReq (url : Json)

/-- The three upstream services, as a deterministic environment: the raw
HTTP outcome of each request the module can issue. -/
structure Upstream where
  geocode : String → HttpOutcome
  points : ℚ → ℚ → HttpOutcome
  forecast : String → HttpOutcome

/-- Fetching `properties["forecast"]` as a URL: `httpx` raises on a
non-string URL before any I/O, and `make_request` swallows that into
`None`. -/
def fetchForecastUrl (env : Upstream) (u : Json) : Option Json :=
  match u with
  | .str t => make_request (env.forecast t)
  | _ => none

/-- Post-processing of the geocoder response (weather_server.py lines
51-55): `if data and len(data) > 0: result = data[0]; return
(float(result["lat"]), float(result["lon"]))` — any exception raised
here propagates to the caller. -/
def geocode_post (d : Option Json) : Except PyExc (Option (ℚ × ℚ)) :=
  match d with
  | none => .ok none
  | some j =>
    if j.truthy = false then .ok none
    else
      match j.pyLen with
      | .error e => .error e
      | .ok n =>
        if n = 0 then .ok none
        else
          match j.pySubscrIdx0 with
          | .error e => .error e
          | .ok result =>
            match result.pySubscr ("lat") with
            | .error e => .error e
            | .ok latJ =>
              match pyFloat latJ with
              | .error e => .error e
              | .ok lat =>
                match result.pySubscr ("lon") with
                | .error e => .error e
                | .ok lonJ =>
                  match pyFloat lonJ with
                  | .error e => .error e
                  | .ok lon => .ok (some (lat, lon))

/-- `geocode_location` (weather_server.py lines 45-55). -/
def geocode_location (env : Upstream) (location : String) :
    Except PyExc (Option (ℚ × ℚ)) :=
  geocode_post (make_request (env.geocode location))

/-- The `{"success": False, "error": msg}` dict literal of the source. -/
def failureJson (msg : String) : Json :=
  Json.obj [("success", Json.bool false), ("error", Json.str msg)]

/-- The geocoding-failure message (weather_server.py line 66). -/
def notFoundMsg (location : String) : String :=
  "Could not find location \x27" ++ location ++ "\x27. Please try a valid US city or state name."

/-- The mojibake degree glyphs appearing literally in the source's
temperature f-string (bytes C2 AC E2 88 9E). -/
def degreeGlyphs : String := "¬∞"

/-- One iteration of the period-formatting loop (weather_server.py lines
110-118), evaluating the subscripts in source order. -/
def formatPeriod (p : Json) : Except PyExc Json :=
  match p.pySubscr ("name") with
  | .error e => .error e
  | .ok name =>
    match p.pySubscr ("temperature") with
    | .error e => .error e
    | .ok temp =>
      match p.pySubscr ("temperatureUnit") with
      | .error e => .error e
      | .ok tunit =>
        match p.pySubscr ("windSpeed") with
        | .error e => .error e
        | .ok ws =>
          match p.pySubscr ("windDirection") with
          | .error e => .error e
          | .ok wd =>
            match p.pySubscr ("detailedForecast") with
            | .error e => .error e
            | .ok df =>
              match p.pyGet ("icon") (Json.str "") with
              | .error e => .error e
              | .ok icon =>
                .ok (Json.obj
                  [("name", name),
                   ("temperature", Json.str (pyStr temp ++ degreeGlyphs ++ pyStr tunit)),
                   ("windSpeed", ws),
                   ("windDirection", wd),
                   ("detailedForecast", df),
                   ("icon", icon)])

/-- The whole formatting loop: stops at the first raising period, keeps
order. -/
def formatPeriods : List Json → Except PyExc (List Json)
  | [] => .ok []
  | p :: ps =>
    match formatPeriod p with
    | .error e => .error e
    | .ok j =>
      match formatPeriods ps with
      | .error e => .error e
      | .ok js => .ok (j :: js)

/-- The `{"success": True, ...}` dict literal of the source (lines
120-128). -/
def successJson (city state : Json) (lat lon : ℚ) (fps : List Json) : Json :=
  Json.obj
    [("success", Json.bool true),
     ("location", Json.str (pyStr city ++ ", " ++ pyStr state)),
     ("coordinates", Json.obj [("latitude", Json.num lat), ("longitude", Json.num lon)]),
     ("forecast", Json.arr fps)]

/-- Outcome of processing the points response (weather_server.py lines
76-91) up to (and including) extracting the forecast URL. -/
inductive Stage1 where
  | exc (e : PyExc)
  | fail (j : Json)
  | cont (pd furl : Json)

/-- Processing of the points response: `if not points_data` check,
`properties` lookup, `"forecast" not in properties` check and the
`properties["forecast"]` subscript. -/
def points_post (d : Option Json) : Stage1 :=
  match d with
  | none => .fail (failureJson ("This location is not in a US forecast area."))
  | some pd =>
    if pd.truthy = false then .fail (failureJson ("This location is not in a US forecast area."))
    else
      match pd.pyGet ("properties") (Json.obj []) with
      | .error e => .exc e
      | .ok props =>
        match pyContains props ("forecast") with
        | .error e => .exc e
        | .ok b =>
          if b = false then .fail (failureJson ("Forecast data not available for this location."))
          else
            match props.pySubscr ("forecast") with
            | .error e => .exc e
            | .ok furl => .cont pd furl

/-- Processing of the forecast response against the saved points data
(weather_server.py lines 94-128): the `if not forecast_data` check, the
relative-location extraction with `"Unknown"` defaults, the period
formatting and the success payload. -/
def stage2 (pd : Json) (lat lon : ℚ) (d2 : Option Json) : Except PyExc Json :=
  match d2 with
  | none => .ok (failureJson ("Unable to fetch forecast data."))
  | some fdj =>
    if fdj.truthy = false then .ok (failureJson ("Unable to fetch forecast data."))
    else do
      let pprops ← pd.pyGet ("properties") (Json.obj [])
      let rl ← pprops.pyGet ("relativeLocation") (Json.obj [])
      let rlp ← rl.pyGet ("properties") (Json.obj [])
      let city ← rlp.pyGet ("city") (Json.str "Unknown")
      let state ← rlp.pyGet ("state") (Json.str "Unknown")
      let fprops ← fdj.pySubscr ("properties")
      let periodsJ ← fprops.pySubscr ("periods")
      let taken ← pySlice5 periodsJ
      let fps ← formatPeriods taken
      .ok (successJson city state lat lon fps)

/-- The body (lines 71-128) of the `try` block of
`get_forecast_for_location`, together with the upstream requests it
issues. -/
def try_block (env : Upstream) (lat lon : ℚ) : Except PyExc Json × List Req :=
  match points_post (make_request (env.points lat lon)) with
  | .exc e => (.error e, [Req.pointsReq lat lon])
  | .fail j => (.ok j, [Req.pointsReq lat lon])
  | .cont pd furl =>
    (stage2 pd lat lon (fetchForecastUrl env furl),
     [Req.pointsReq lat lon, Req.forecastReq furl])

/-- The `except Exception` handler of lines 130-134: every exception
raised inside the `try` block becomes a failure payload with the
`"Error fetching forecast: "` prefix. -/
def catchWrap : Except PyExc Json → Except PyExc Json
  | .ok j => .ok j
  | .error e => .ok (failureJson ("Error fetching forecast: " ++ excStr e))

/-- `get_forecast_for_location` (weather_server.py lines 58-134),
returning the resolver outcome (`Except.error` = a Python exception
escaping the function, which only the geocoding step can produce since
the `try` begins after it) and the list of upstream requests issued, in
order. -/
def get_forecast_for_location (env : Upstream) (location : String) :
    Except PyExc Json × List Req :=
  match geocode_location env location with
  | .error e => (.error e, [Req.geocodeReq location])
  | .ok none => (.ok (failureJson (notFoundMsg location)), [Req.geocodeReq location])
  | .ok (some (lat, lon)) =>
    let r := try_block env lat lon
    (catchWrap r.1, Req.geocodeReq location :: r.2)

/-- Python `str.strip()` (leading and trailing whitespace removed). -/
def pyStrip (s : String) : String :=
  ⟨((s.data.dropWhile Char.isWhitespace).reverse.dropWhile Char.isWhitespace).reverse⟩

/-- The `/api/forecast` endpoint (weather_server.py lines 143-162),
plus Flask's 500 handler (lines 170-172) for an exception escaping the
resolver: HTTP status, JSON body, and the upstream requests issued.  A
missing `location` query parameter is `none`; `request.args.get` then
yields the default `""`. -/
def get_forecast (env : Upstream) (locationParam : Option String) :
    Nat × Json × List Req :=
  let location := pyStrip (locationParam.getD "")
  if location = "" then
    (400, failureJson ("Please provide a location (city or state name)"), [])
  else
    match get_forecast_for_location env location with
    | (.ok j, l) => (200, j, l)
    | (.error _, l) => (500, Json.obj [("error", Json.str "Internal server error")], l)

/-! ### A stateful view of the upstream services

To make determinism of the resolver a non-vacuous statement, the three
services are also modelled as a single oracle carrying hidden state of
its own, consulted once per outgoing request in program order.  The
resolver is re-interpreted against the oracle (`st_resolver`); when the
oracle's visible answers do not depend on its state, `st_resolver`
computes the same outcome as the pure `get_forecast_for_location`. -/

/-- An upstream backend with hidden internal state `σ`: each request
produces a raw HTTP outcome and a successor state. -/
structure Oracle (σ : Type) where
  respond : σ → Req → HttpOutcome × σ

/-- One `make_request` against the oracle. -/
def stFetch {σ : Type} (o : Oracle σ) (s : σ) (r : Req) : Option Json × σ :=
  (make_request (o.respond s r).1, (o.respond s r).2)

/-- Fetching the forecast URL against the oracle (no I/O for a
non-string URL, as in `fetchForecastUrl`). -/
def stFetchUrl {σ : Type} (o : Oracle σ) (s : σ) (u : Json) : Option Json × σ :=
  match u with
  | .str t => stFetch o s (Req.forecastReq (Json.str t))
  | _ => (none, s)

/-- `geocode_location` against the oracle. -/
def st_geocode {σ : Type} (o : Oracle σ) (s : σ) (location : String) :
    Except PyExc (Option (ℚ × ℚ)) × σ :=
  (geocode_post (stFetch o s (Req.geocodeReq location)).1,
   (stFetch o s (Req.geocodeReq location)).2)

/-- The `try` block against the oracle. -/
def st_try {σ : Type} (o : Oracle σ) (s : σ) (lat lon : ℚ) :
    Except PyExc Json × σ :=
  match points_post (stFetch o s (Req.pointsReq lat lon)).1 with
  | .exc e => (.error e, (stFetch o s (Req.pointsReq lat lon)).2)
  | .fail j => (.ok j, (stFetch o s (Req.pointsReq lat lon)).2)
  | .cont pd furl =>
    (stage2 pd lat lon (stFetchUrl o (stFetch o s (Req.pointsReq lat lon)).2 furl).1,
     (stFetchUrl o (stFetch o s (Req.pointsReq lat lon)).2 furl).2)

/-- `get_forecast_for_location` against the oracle. -/
def st_resolver {σ : Type} (o : Oracle σ) (s : σ) (location : String) :
    Except PyExc Json × σ :=
  match (st_geocode o s location).1 with
  | .error e => (.error e, (st_geocode o s location).2)
  | .ok none => (.ok (failureJson (notFoundMsg location)), (st_geocode o s location).2)
  | .ok (some (lat, lon)) =>
    (catchWrap (st_try o (st_geocode o s location).2 lat lon).1,
     (st_try o (st_geocode o s location).2 lat lon).2)

/-- The pure environment induced by a state-independent answer
function. -/
def envOf (f : Req → HttpOutcome) : Upstream where
  geocode := fun location => f (Req.geocodeReq location)
  points := fun lat lon => f (Req.pointsReq lat lon)
  forecast := fun t => f (Req.forecastReq (Json.str t))

/-! ### Concrete stub environments used as witnesses -/

/-- Geocoder answers with a result object that has no `"lat"` key; the
other services are unreachable. -/
def envC1 : Upstream where
  geocode := fun _ => .response 200 (some (Json.arr [Json.obj [("lon", Json.str "0")]]))
  points := fun _ _ => .netError
  forecast := fun _ => .netError

/-- Geocoder answers with coordinates (1, 2); the points service answers
with a JSON array, on which `.get` raises `AttributeError` inside the
`try` block. -/
def envC1W : Upstream where
  geocode := fun _ =>
    .response 200 (some (Json.arr [Json.obj [("lat", Json.str "1"), ("lon", Json.str "2")]]))
  points := fun _ _ => .response 200 (some (Json.arr [Json.str "forecast"]))
  forecast := fun _ => .netError

/-- Geocoder answers HTTP 200 with an empty result array. -/
def envAtlantis : Upstream where
  geocode := fun _ => .response 200 (some (Json.arr []))
  points := fun _ _ => .netError
  forecast := fun _ => .netError

/-- Every upstream service answers HTTP 404. -/
def envDown : Upstream where
  geocode := fun _ => .response 404 (some (Json.obj [("detail", Json.str "Not Found")]))
  points := fun _ _ => .response 404 (some (Json.obj [("detail", Json.str "Not Found")]))
  forecast := fun _ => .response 404 (some (Json.obj [("detail", Json.str "Not Found")]))

/-- A geocoder response resolving to coordinates (1, 2). -/
def geoOkBody : Json :=
  Json.arr [Json.obj [("lat", Json.str "1"), ("lon", Json.str "2")]]

/-- Geocoder succeeds; the points service is down. -/
def envNoArea : Upstream where
  geocode := fun _ => .response 200 (some geoOkBody)
  points := fun _ _ => .response 404 none
  forecast := fun _ => .netError

/-- Geocoder succeeds; the points response has a `properties` object
without a `forecast` key. -/
def envNoForecastKey : Upstream where
  geocode := fun _ => .response 200 (some geoOkBody)
  points := fun _ _ =>
    .response 200 (some (Json.obj [("properties", Json.obj [("gridId", Json.str "OKX")])]))
  forecast := fun _ => .netError

/-- Geocoder and points succeed; the forecast service times out. -/
def envNoForecastData : Upstream where
  geocode := fun _ => .response 200 (some geoOkBody)
  points := fun _ _ =>
    .response 200 (some (Json.obj [("properties", Json.obj [("forecast", Json.str "X")])]))
  forecast := fun _ => .netError

/-- The `i`-th stub forecast period of scenario A. -/
def periodA (i : Nat) : Json :=
  Json.obj
    [("name", Json.str ("P" ++ toString i)),
     ("temperature", Json.num ((60 + i : ℕ) : ℚ)),
     ("temperatureUnit", Json.str "F"),
     ("windSpeed", Json.str "5 mph"),
     ("windDirection", Json.str "NW"),
     ("detailedForecast", Json.str ("D" ++ toString i)),
     ("icon", Json.str ("I" ++ toString i))]

/-- Scenario A points response: forecast URL `"X"`, relative location
New York, NY. -/
def pointsA : Json :=
  Json.obj
    [("properties",
      Json.obj
        [("forecast", Json.str "X"),
         ("relativeLocation",
          Json.obj
            [("properties",
              Json.obj [("city", Json.str "New York"), ("state", Json.str "NY")])])])]

/-- Scenario A forecast response: 7 periods. -/
def forecastA : Json :=
  Json.obj [("properties", Json.obj [("periods", Json.arr ((List.range 7).map periodA))])]

/-- Scenario A environment: geocoder → (40.7128, -74.0060), grid lookup
→ `pointsA`, forecast → `forecastA`. -/
def envA : Upstream where
  geocode := fun _ =>
    .response 200
      (some (Json.arr [Json.obj [("lat", Json.str "40.7128"), ("lon", Json.str "-74.0060")]]))
  points := fun _ _ => .response 200 (some pointsA)
  forecast := fun _ => .response 200 (some forecastA)

/-- A stateful oracle whose answers ignore its counter state. -/
def detOracle : Oracle Nat where
  respond := fun n _ => (HttpOutcome.netError, n + 1)

/-- Scenario A latitude. -/
def latA : ℚ := 40.7128

/-- Scenario A longitude. -/
def lonA : ℚ := -74.0060

/-- The reshaped form of the `i`-th scenario-A period, as the resolver
builds it. -/
def fmtPeriodA (i : Nat) : Json :=
  Json.obj
    [("name", Json.str ("P" ++ toString i)),
     ("temperature", Json.str (toString (60 + i) ++ degreeGlyphs ++ "F")),
     ("windSpeed", Json.str "5 mph"),
     ("windDirection", Json.str "NW"),
     ("detailedForecast", Json.str ("D" ++ toString i)),
     ("icon", Json.str ("I" ++ toString i))]

/-- The full scenario-A success payload. -/
def jA : Json :=
  successJson (Json.str "New York") (Json.str "NY") latA lonA ((List.range 5).map fmtPeriodA)

/-! ### Helper lemmas -/

/-- The `except` handler of the resolver never re-raises: its output is
always an `ok` payload. -/
lemma catchWrap_ne_error (r : Except PyExc Json) (e : PyExc) :
    catchWrap r ≠ Except.error e := by
  cases r <;> simp [catchWrap]

/-- Inversion of an `Except` bind against a successful result. -/
lemma except_bind_ok {α β : Type} (x : Except PyExc α) (f : α → Except PyExc β) (b : β) :
    x >>= f = Except.ok b ↔ ∃ a, x = Except.ok a ∧ f a = Except.ok b := by
  cases x with
  | error e => simp [Bind.bind, Except.bind]
  | ok a => simp [Bind.bind, Except.bind]

/-- The failure payload is tagged unsuccessful. -/
lemma failureJson_lookup_success (m : String) :
    (failureJson m).lookup ("success") = some (Json.bool false) := rfl

/-- The success payload is tagged successful. -/
lemma successJson_lookup_success (c s : Json) (la lo : ℚ) (f : List Json) :
    (successJson c s la lo f).lookup ("success") = some (Json.bool true) := rfl

/-- The success payload's location field. -/
lemma successJson_lookup_location (c s : Json) (la lo : ℚ) (f : List Json) :
    (successJson c s la lo f).lookup ("location") =
      some (Json.str (pyStr c ++ ", " ++ pyStr s)) := rfl

/-- The success payload's coordinates field. -/
lemma successJson_lookup_coordinates (c s : Json) (la lo : ℚ) (f : List Json) :
    (successJson c s la lo f).lookup ("coordinates") =
      some (Json.obj [("latitude", Json.num la), ("longitude", Json.num lo)]) := rfl

/-- The success payload's forecast field. -/
lemma successJson_lookup_forecast (c s : Json) (la lo : ℚ) (f : List Json) :
    (successJson c s la lo f).lookup ("forecast") = some (Json.arr f) := rfl

/-- The failure payload's key set. -/
lemma failureJson_keys (m : String) :
    (failureJson m).keys = ["success", "error"] := rfl

/-- The success payload's key set. -/
lemma successJson_keys (c s : Json) (la lo : ℚ) (f : List Json) :
    (successJson c s la lo f).keys = ["success", "location", "coordinates", "forecast"] := rfl

/-- `points_post` signals early return only with a failure payload. -/
lemma points_post_fail_shape (d : Option Json) (jf : Json)
    (h : points_post d = Stage1.fail jf) : ∃ m, jf = failureJson m := by
  cases d with
  | none =>
    simp only [points_post, Stage1.fail.injEq] at h
    exact ⟨_, h.symm⟩
  | some pd =>
    simp only [points_post] at h
    split at h
    · simp only [Stage1.fail.injEq] at h
      exact ⟨_, h.symm⟩
    · cases hp : pd.pyGet ("properties") (Json.obj []) with
      | error e =>
        simp only [hp] at h
        exact Stage1.noConfusion h
      | ok props =>
        simp only [hp] at h
        cases hc : pyContains props ("forecast") with
        | error e =>
          simp only [hc] at h
          exact Stage1.noConfusion h
        | ok b =>
          simp only [hc] at h
          split at h
          · simp only [Stage1.fail.injEq] at h
            exact ⟨_, h.symm⟩
          · cases hsub : props.pySubscr ("forecast") with
            | error e =>
              simp only [hsub] at h
              exact Stage1.noConfusion h
            | ok furl =>
              simp only [hsub] at h
              exact Stage1.noConfusion h

/-- Every successful `stage2` outcome is either a failure payload or the
assembled success payload at the given coordinates. -/
lemma stage2_ok_shape (pd : Json) (lat lon : ℚ) (d2 : Option Json) (j : Json)
    (h : stage2 pd lat lon d2 = Except.ok j) :
    (∃ m, j = failureJson m) ∨ ∃ c s fps, j = successJson c s lat lon fps := by
  cases d2 with
  | none =>
    simp only [stage2, Except.ok.injEq] at h
    exact Or.inl ⟨_, h.symm⟩
  | some fdj =>
    simp only [stage2] at h
    split at h
    · simp only [Except.ok.injEq] at h
      exact Or.inl ⟨_, h.symm⟩
    · simp only [except_bind_ok] at h
      obtain ⟨pprops, h1, rl, h2, rlp, h3, city, h4, state, h5, fprops, h6,
        periodsJ, h7, taken, h8, fps, h9, hfin⟩ := h
      simp only [Except.ok.injEq] at hfin
      exact Or.inr ⟨city, state, fps, hfin.symm⟩

/-- Full inversion of a successful `stage2` run that produced a payload
tagged successful. -/
lemma stage2_ok_success (pd : Json) (lat lon : ℚ) (d2 : Option Json) (j : Json)
    (h : stage2 pd lat lon d2 = Except.ok j)
    (hs : j.lookup ("success") = some (Json.bool true)) :
    ∃ fdj pprops rl rlp city state fprops periodsJ taken fps,
      d2 = some fdj ∧ fdj.truthy = true ∧
      pd.pyGet ("properties") (Json.obj []) = Except.ok pprops ∧
      pprops.pyGet ("relativeLocation") (Json.obj []) = Except.ok rl ∧
      rl.pyGet ("properties") (Json.obj []) = Except.ok rlp ∧
      rlp.pyGet ("city") (Json.str "Unknown") = Except.ok city ∧
      rlp.pyGet ("state") (Json.str "Unknown") = Except.ok state ∧
      fdj.pySubscr ("properties") = Except.ok fprops ∧
      fprops.pySubscr ("periods") = Except.ok periodsJ ∧
      pySlice5 periodsJ = Except.ok taken ∧
      formatPeriods taken = Except.ok fps ∧
      j = successJson city state lat lon fps := by
  cases d2 with
  | none =>
    simp only [stage2, Except.ok.injEq] at h
    subst h
    rw [failureJson_lookup_success] at hs
    simp at hs
  | some fdj =>
    simp only [stage2] at h
    split at h
    · simp only [Except.ok.injEq] at h
      subst h
      rw [failureJson_lookup_success] at hs
      simp at hs
    · rename_i hc
      have htr : fdj.truthy = true := by
        revert hc
        cases fdj.truthy <;> simp
      simp only [except_bind_ok] at h
      obtain ⟨pprops, h1, rl, h2, rlp, h3, city, h4, state, h5, fprops, h6,
        periodsJ, h7, taken, h8, fps, h9, hfin⟩ := h
      simp only [Except.ok.injEq] at hfin
      exact ⟨fdj, pprops, rl, rlp, city, state, fprops, periodsJ, taken, fps,
        rfl, htr, h1, h2, h3, h4, h5, h6, h7, h8, h9, hfin.symm⟩

/-- Every value the resolver returns without raising is either a failure
payload or a success payload. -/
lemma resolver_ok_shape (env : Upstream) (location : String) (j : Json)
    (h : (get_forecast_for_location env location).1 = Except.ok j) :
    (∃ m, j = failureJson m) ∨ ∃ c s la lo fps, j = successJson c s la lo fps := by
  unfold get_forecast_for_location at h
  cases hg : geocode_location env location with
  | error e =>
    simp only [hg] at h
    exact Except.noConfusion h
  | ok oc =>
    cases oc with
    | none =>
      simp only [hg, Except.ok.injEq] at h
      exact Or.inl ⟨_, h.symm⟩
    | some c =>
      obtain ⟨lat, lon⟩ := c
      simp only [hg] at h
      unfold try_block at h
      cases hp : points_post (make_request (env.points lat lon)) with
      | exc e =>
        simp only [hp, catchWrap, Except.ok.injEq] at h
        exact Or.inl ⟨_, h.symm⟩
      | fail jf =>
        simp only [hp, catchWrap, Except.ok.injEq] at h
        obtain ⟨m, rfl⟩ := points_post_fail_shape _ _ hp
        exact Or.inl ⟨m, h.symm⟩
      | cont pd furl =>
        simp only [hp] at h
        cases hst : stage2 pd lat lon (fetchForecastUrl env furl) with
        | error e =>
          simp only [hst, catchWrap, Except.ok.injEq] at h
          exact Or.inl ⟨_, h.symm⟩
        | ok j2 =>
          simp only [hst, catchWrap, Except.ok.injEq] at h
          subst h
          rcases stage2_ok_shape pd lat lon _ j2 hst with ⟨m, rfl⟩ | ⟨c, s, fps, rfl⟩
          · exact Or.inl ⟨m, rfl⟩
          · exact Or.inr ⟨c, s, lat, lon, fps, rfl⟩

/-- Inversion of a resolver run producing a payload tagged successful:
the chain must have passed geocoding, grid lookup and forecast fetch. -/
lemma resolver_success_char (env : Upstream) (location : String) (j : Json)
    (h : (get_forecast_for_location env location).1 = Except.ok j)
    (hs : j.lookup ("success") = some (Json.bool true)) :
    ∃ lat lon pd furl,
      geocode_location env location = Except.ok (some (lat, lon)) ∧
      points_post (make_request (env.points lat lon)) = Stage1.cont pd furl ∧
      stage2 pd lat lon (fetchForecastUrl env furl) = Except.ok j := by
  unfold get_forecast_for_location at h
  cases hg : geocode_location env location with
  | error e =>
    simp only [hg] at h
    exact Except.noConfusion h
  | ok oc =>
    cases oc with
    | none =>
      simp only [hg, Except.ok.injEq] at h
      subst h
      rw [failureJson_lookup_success] at hs
      simp at hs
    | some c =>
      obtain ⟨lat, lon⟩ := c
      simp only [hg] at h
      unfold try_block at h
      cases hp : points_post (make_request (env.points lat lon)) with
      | exc e =>
        simp only [hp, catchWrap, Except.ok.injEq] at h
        subst h
        rw [failureJson_lookup_success] at hs
        simp at hs
      | fail jf =>
        simp only [hp, catchWrap, Except.ok.injEq] at h
        obtain ⟨m, rfl⟩ := points_post_fail_shape _ _ hp
        subst h
        rw [failureJson_lookup_success] at hs
        simp at hs
      | cont pd furl =>
        simp only [hp] at h
        cases hst : stage2 pd lat lon (fetchForecastUrl env furl) with
        | error e =>
          simp only [hst, catchWrap, Except.ok.injEq] at h
          subst h
          rw [failureJson_lookup_success] at hs
          simp at hs
        | ok j2 =>
          simp only [hst, catchWrap, Except.ok.injEq] at h
          subst h
          exact ⟨lat, lon, pd, furl, rfl, hp, hst⟩

/-- `formatPeriods` preserves the number of periods. -/
lemma formatPeriods_length (l r : List Json) (h : formatPeriods l = Except.ok r) :
    r.length = l.length := by
  induction l generalizing r with
  | nil =>
    simp only [formatPeriods, Except.ok.injEq] at h
    subst h
    rfl
  | cons p ps ih =>
    simp only [formatPeriods] at h
    cases hf : formatPeriod p with
    | error e =>
      simp only [hf] at h
      exact Except.noConfusion h
    | ok jp =>
      simp only [hf] at h
      cases hr : formatPeriods ps with
      | error e =>
        simp only [hr] at h
        exact Except.noConfusion h
      | ok js =>
        simp only [hr, Except.ok.injEq] at h
        subst h
        simp [ih js hr]

/-- The slice `[:5]` yields at most five elements. -/
lemma pySlice5_length (pj : Json) (taken : List Json) (h : pySlice5 pj = Except.ok taken) :
    taken.length ≤ 5 := by
  cases pj with
  | arr xs =>
    simp only [pySlice5, Except.ok.injEq] at h
    subst h
    exact List.length_take_le 5 xs
  | str s =>
    simp only [pySlice5, Except.ok.injEq] at h
    subst h
    rw [List.length_map]
    exact List.length_take_le 5 s.data
  | null => simp [pySlice5] at h
  | bool b => simp [pySlice5] at h
  | num q => simp [pySlice5] at h
  | obj fs => simp [pySlice5] at h

/-- On a JSON array the slice `[:5]` is the five-element prefix. -/
lemma pySlice5_arr (xs taken : List Json) (h : pySlice5 (Json.arr xs) = Except.ok taken) :
    taken = xs.take 5 := by
  simp only [pySlice5, Except.ok.injEq] at h
  exact h.symm

/-! ### Claims -/

/-- C1, counterexample: the claim says every unexpected exception in the
resolution chain is caught inside `get_forecast_for_location`, so the
endpoint never answers with a non-2xx status other than 400.  But the
`try` block begins only after the geocoding step: when the geocoder
answers HTTP 200 with a result object lacking the `"lat"` key,
`geocode_location` raises `KeyError`, the exception escapes the
resolver, and the endpoint answers HTTP 500. -/
theorem c1_counterexample :
    (get_forecast_for_location envC1 ("Springfield")).1 =
        Except.error (PyExc.keyError ("lat")) ∧
    (get_forecast envC1 (some "Springfield")).1 = 500 :=
  ⟨rfl, rfl⟩

/-- C1, amended: an exception escapes `get_forecast_for_location` exactly
when the geocoding step raises it; any exception raised inside the `try`
block (grid lookup, forecast fetch, payload assembly) is caught and
reported as a `Failure` whose message is `"Error fetching forecast: "`
followed by the exception details. -/
theorem c1_amended_exception_boundary :
    (∀ env location e,
        (get_forecast_for_location env location).1 = Except.error e ↔
          geocode_location env location = Except.error e) ∧
    (∀ env location lat lon e,
        geocode_location env location = Except.ok (some (lat, lon)) →
        (try_block env lat lon).1 = Except.error e →
        (get_forecast_for_location env location).1 =
          Except.ok (failureJson ("Error fetching forecast: " ++ excStr e))) := by
  constructor
  · intro env location e
    unfold get_forecast_for_location
    cases hg : geocode_location env location with
    | error e' => simp
    | ok oc =>
      match oc with
      | none => simp
      | some (lat, lon) =>
        simpa using catchWrap_ne_error (try_block env lat lon).1 e
  · intro env location lat lon e hg ht
    unfold get_forecast_for_location
    rw [hg]
    simp only []
    rw [ht]
    rfl

/-- C1, witness for the amended theorem: a concrete backend whose points
response is a JSON array makes `.get` raise `AttributeError` inside the
`try` block, and the resolver reports it as the prefixed failure
message. -/
theorem c1_amended_witness :
    geocode_location envC1W ("Denver") = Except.ok (some (1, 2)) ∧
    (try_block envC1W 1 2).1 = Except.error PyExc.attributeError ∧
    (get_forecast_for_location envC1W ("Denver")).1 =
      Except.ok (failureJson ("Error fetching forecast: AttributeError")) :=
  ⟨by with_unfolding_all rfl, rfl,
    c1_amended_exception_boundary.2 envC1W ("Denver") 1 2 PyExc.attributeError (by with_unfolding_all rfl) rfl⟩

/-- C2: whenever the geocoding fetch fails or yields an empty result
array, the resolver short-circuits after the single geocoding request
and returns the `Failure` whose message embeds the location string. -/
theorem c2_geocoder_empty_short_circuits (env : Upstream) (location : String)
    (h : make_request (env.geocode location) = none ∨
         make_request (env.geocode location) = some (Json.arr [])) :
    get_forecast_for_location env location =
      (Except.ok (failureJson (notFoundMsg location)), [Req.geocodeReq location]) := by
  unfold get_forecast_for_location geocode_location
  rcases h with h | h <;> rw [h] <;> rfl

/-- C2, witness: for `"Atlantis"` against a geocoder answering the empty
array, the message is exactly the one the claim states, and the request
log holds the geocoding request alone. -/
theorem c2_witness :
    make_request (envAtlantis.geocode ("Atlantis")) = some (Json.arr []) ∧
    get_forecast_for_location envAtlantis ("Atlantis") =
      (Except.ok (failureJson
          ("Could not find location \x27Atlantis\x27. Please try a valid US city or state name.")),
        [Req.geocodeReq ("Atlantis")]) :=
  ⟨rfl, c2_geocoder_empty_short_circuits envAtlantis ("Atlantis") (Or.inr rfl)⟩

/-- C4: `make_request` maps every non-200 status, every undecodable
body and every transport failure to `none` rather than an exception, and
a `none` answer at each of the three hops makes the resolver yield the
corresponding `Failure` payload (never an escaping exception). -/
theorem c4_non200_never_raises :
    (∀ status body, status ≠ 200 → make_request (HttpOutcome.response status body) = none) ∧
    (∀ status, make_request (HttpOutcome.response status none) = none) ∧
    make_request HttpOutcome.netError = none ∧
    (∀ env location, make_request (env.geocode location) = none →
      get_forecast_for_location env location =
        (Except.ok (failureJson (notFoundMsg location)), [Req.geocodeReq location])) ∧
    (∀ env location lat lon,
      geocode_location env location = Except.ok (some (lat, lon)) →
      make_request (env.points lat lon) = none →
      (get_forecast_for_location env location).1 =
        Except.ok (failureJson ("This location is not in a US forecast area."))) ∧
    (∀ env location lat lon pd furl,
      geocode_location env location = Except.ok (some (lat, lon)) →
      points_post (make_request (env.points lat lon)) = Stage1.cont pd furl →
      fetchForecastUrl env furl = none →
      (get_forecast_for_location env location).1 =
        Except.ok (failureJson ("Unable to fetch forecast data."))) := by
  refine ⟨?_, ?_, rfl, ?_, ?_, ?_⟩
  · intro status body h
    simp [make_request, h]
  · intro status
    simp [make_request]
  · intro env location h
    unfold get_forecast_for_location geocode_location
    rw [h]
    rfl
  · intro env location lat lon hg hp
    unfold get_forecast_for_location
    rw [hg]
    simp only []
    unfold try_block
    rw [hp]
    rfl
  · intro env location lat lon pd furl hg hp hf
    unfold get_forecast_for_location
    rw [hg]
    simp only []
    unfold try_block
    rw [hp]
    simp only []
    unfold stage2
    rw [hf]
    rfl

/-- C4, witness: a concrete 404 answer decodes to `none`, and a backend
whose geocoder answers 404 drives the resolver to the location-not-found
`Failure`. -/
theorem c4_witness :
    make_request (HttpOutcome.response 404 (some (Json.obj []))) = none ∧
    get_forecast_for_location envDown ("Berlin") =
      (Except.ok (failureJson (notFoundMsg ("Berlin"))), [Req.geocodeReq ("Berlin")]) :=
  ⟨c4_non200_never_raises.1 404 (some (Json.obj [])) (by decide),
   c4_non200_never_raises.2.2.2.1 envDown ("Berlin") rfl⟩

/-- C5: the two grid-lookup failure modes yield the two distinct
messages the claim states: a falsy points answer gives the
not-in-forecast-area message, and a truthy points answer whose
`properties` lacks the `"forecast"` key gives the
forecast-data-not-available message. -/
theorem c5_distinct_grid_failures :
    (∀ env location lat lon,
      geocode_location env location = Except.ok (some (lat, lon)) →
      truthyOpt (make_request (env.points lat lon)) = false →
      (get_forecast_for_location env location).1 =
        Except.ok (failureJson ("This location is not in a US forecast area."))) ∧
    (∀ env location lat lon pd props,
      geocode_location env location = Except.ok (some (lat, lon)) →
      make_request (env.points lat lon) = some pd →
      pd.truthy = true →
      pd.pyGet ("properties") (Json.obj []) = Except.ok props →
      pyContains props ("forecast") = Except.ok false →
      (get_forecast_for_location env location).1 =
        Except.ok (failureJson ("Forecast data not available for this location."))) ∧
    ("This location is not in a US forecast area." ≠
      "Forecast data not available for this location.") := by
  refine ⟨?_, ?_, by decide⟩
  · intro env location lat lon hg ht
    unfold get_forecast_for_location
    rw [hg]
    simp only []
    unfold try_block
    cases hd : make_request (env.points lat lon) with
    | none => rfl
    | some pd =>
      rw [hd] at ht
      simp only [truthyOpt] at ht
      unfold points_post
      simp [ht, catchWrap]
  · intro env location lat lon pd props hg hd htruth hprops hcont
    unfold get_forecast_for_location
    rw [hg]
    simp only []
    unfold try_block points_post
    rw [hd]
    simp [htruth, hprops, hcont, catchWrap]

/-- C5, witness: two concrete backends produce the two distinct
messages. -/
theorem c5_witness :
    (get_forecast_for_location envNoArea ("Paris")).1 =
        Except.ok (failureJson ("This location is not in a US forecast area.")) ∧
    (get_forecast_for_location envNoForecastKey ("Paris")).1 =
        Except.ok (failureJson ("Forecast data not available for this location.")) :=
  ⟨c5_distinct_grid_failures.1 envNoArea ("Paris") 1 2 (by with_unfolding_all rfl) rfl,
   c5_distinct_grid_failures.2.1 envNoForecastKey ("Paris") 1 2
     (Json.obj [("properties", Json.obj [("gridId", Json.str "OKX")])])
     (Json.obj [("gridId", Json.str "OKX")]) (by with_unfolding_all rfl) rfl rfl rfl rfl⟩

/-- C6: a missing or empty `location` query parameter makes the endpoint
answer HTTP 400 with the exact validation body, without issuing any
upstream request; any actual resolver invocation, by contrast, issues at
least the geocoding request. -/
theorem c6_validation_400 (env : Upstream) :
    get_forecast env none =
        (400, failureJson ("Please provide a location (city or state name)"), []) ∧
    get_forecast env (some "") =
        (400, failureJson ("Please provide a location (city or state name)"), []) ∧
    ∀ location, (get_forecast_for_location env location).2 ≠ [] := by
  refine ⟨rfl, rfl, ?_⟩
  intro location
  unfold get_forecast_for_location
  cases geocode_location env location with
  | error e => simp
  | ok oc =>
    match oc with
    | none => simp
    | some (lat, lon) => simp

/-- C6, witness: the 400 body at a concrete backend, and a concrete
resolver call issuing a nonempty request list. -/
theorem c6_witness :
    get_forecast envAtlantis none =
        (400, failureJson ("Please provide a location (city or state name)"), []) ∧
    (get_forecast_for_location envAtlantis ("X")).2 ≠ [] :=
  ⟨(c6_validation_400 envAtlantis).1, (c6_validation_400 envAtlantis).2.2 ("X")⟩

/-- C8: every value the resolver returns without raising is a fully
tagged outcome: either a failure payload carrying exactly `success` and
`error` (no location, coordinates or forecast), or a success payload
carrying exactly `success`, `location`, `coordinates` and `forecast`. -/
theorem c8_tagged_outcome (env : Upstream) (location : String) (j : Json)
    (h : (get_forecast_for_location env location).1 = Except.ok j) :
    (j.lookup ("success") = some (Json.bool false) ∧ j.keys = ["success", "error"]) ∨
    (j.lookup ("success") = some (Json.bool true) ∧
      j.keys = ["success", "location", "coordinates", "forecast"]) := by
  rcases resolver_ok_shape env location j h with ⟨m, rfl⟩ | ⟨c, s, la, lo, fps, rfl⟩
  · exact Or.inl ⟨failureJson_lookup_success m, failureJson_keys m⟩
  · exact Or.inr ⟨successJson_lookup_success c s la lo fps, successJson_keys c s la lo fps⟩

/-- C8, witness: the payload of a concrete failing resolution is the
failure shape. -/
theorem c8_witness :
    ((failureJson (notFoundMsg ("Atlantis"))).lookup ("success") = some (Json.bool false) ∧
        (failureJson (notFoundMsg ("Atlantis"))).keys = ["success", "error"]) ∨
    ((failureJson (notFoundMsg ("Atlantis"))).lookup ("success") = some (Json.bool true) ∧
        (failureJson (notFoundMsg ("Atlantis"))).keys =
          ["success", "location", "coordinates", "forecast"]) :=
  c8_tagged_outcome envAtlantis ("Atlantis") (failureJson (notFoundMsg ("Atlantis"))) rfl

/-- C3: on every successful resolution, the forecast list holds at most
five entries: the per-period reshaping of the `[:5]` slice of the
upstream period list, one entry per sliced period in upstream order. -/
theorem c3_forecast_truncation (env : Upstream) (location : String) (j : Json)
    (fps : List Json)
    (h : (get_forecast_for_location env location).1 = Except.ok j)
    (hs : j.lookup ("success") = some (Json.bool true))
    (hf : j.lookup ("forecast") = some (Json.arr fps)) :
    fps.length ≤ 5 ∧
    ∃ lat lon pd furl fdj fprops periodsJ taken,
      geocode_location env location = Except.ok (some (lat, lon)) ∧
      points_post (make_request (env.points lat lon)) = Stage1.cont pd furl ∧
      fetchForecastUrl env furl = some fdj ∧
      fdj.pySubscr ("properties") = Except.ok fprops ∧
      fprops.pySubscr ("periods") = Except.ok periodsJ ∧
      pySlice5 periodsJ = Except.ok taken ∧
      formatPeriods taken = Except.ok fps ∧
      fps.length = taken.length ∧ taken.length ≤ 5 ∧
      ∀ xs, periodsJ = Json.arr xs → taken = xs.take 5 := by
  obtain ⟨lat, lon, pd, furl, hg, hp, hst⟩ := resolver_success_char env location j h hs
  obtain ⟨fdj, pprops, rl, rlp, city, state, fprops, periodsJ, taken, fps0,
    hd2, htr, h1, h2, h3, h4, h5, h6, h7, h8, h9, hj⟩ :=
    stage2_ok_success pd lat lon _ j hst hs
  subst hj
  rw [successJson_lookup_forecast] at hf
  simp only [Option.some.injEq, Json.arr.injEq] at hf
  subst hf
  have hlen : fps0.length = taken.length := formatPeriods_length taken fps0 h9
  have htk : taken.length ≤ 5 := pySlice5_length periodsJ taken h8
  refine ⟨by rw [hlen]; exact htk,
    lat, lon, pd, furl, fdj, fprops, periodsJ, taken,
    hg, hp, hd2, h6, h7, h8, h9, hlen, htk, ?_⟩
  intro xs hxs
  subst hxs
  exact pySlice5_arr xs taken h8

/-- C3, witness: the scenario-A stub yields the five reshaped periods of
a seven-period upstream response. -/
theorem c3_witness :
    ((List.range 5).map fmtPeriodA).length ≤ 5 ∧
    ∃ lat lon pd furl fdj fprops periodsJ taken,
      geocode_location envA ("New York") = Except.ok (some (lat, lon)) ∧
      points_post (make_request (envA.points lat lon)) = Stage1.cont pd furl ∧
      fetchForecastUrl envA furl = some fdj ∧
      fdj.pySubscr ("properties") = Except.ok fprops ∧
      fprops.pySubscr ("periods") = Except.ok periodsJ ∧
      pySlice5 periodsJ = Except.ok taken ∧
      formatPeriods taken = Except.ok ((List.range 5).map fmtPeriodA) ∧
      ((List.range 5).map fmtPeriodA).length = taken.length ∧ taken.length ≤ 5 ∧
      ∀ xs, periodsJ = Json.arr xs → taken = xs.take 5 :=
  c3_forecast_truncation envA ("New York") jA ((List.range 5).map fmtPeriodA)
    (by with_unfolding_all rfl) rfl rfl

/-- C7: on every successful resolution the location field is
`"{city}, {state}"` built from the grid response's relative location
with `"Unknown"` defaults, and the coordinates are the geocoded pair;
and the concrete scenario-A stub yields `Success` with location
`"New York, NY"`, coordinates (40.7128, -74.0060) and the first five of
the seven stub periods. -/
theorem c7_location_and_scenario :
    (∀ env location j,
        (get_forecast_for_location env location).1 = Except.ok j →
        j.lookup ("success") = some (Json.bool true) →
        ∃ lat lon pd furl fdj pprops rl rlp city state,
          geocode_location env location = Except.ok (some (lat, lon)) ∧
          points_post (make_request (env.points lat lon)) = Stage1.cont pd furl ∧
          fetchForecastUrl env furl = some fdj ∧
          pd.pyGet ("properties") (Json.obj []) = Except.ok pprops ∧
          pprops.pyGet ("relativeLocation") (Json.obj []) = Except.ok rl ∧
          rl.pyGet ("properties") (Json.obj []) = Except.ok rlp ∧
          rlp.pyGet ("city") (Json.str "Unknown") = Except.ok city ∧
          rlp.pyGet ("state") (Json.str "Unknown") = Except.ok state ∧
          j.lookup ("location") = some (Json.str (pyStr city ++ ", " ++ pyStr state)) ∧
          j.lookup ("coordinates") =
            some (Json.obj [("latitude", Json.num lat), ("longitude", Json.num lon)])) ∧
    (get_forecast_for_location envA ("New York") =
        (Except.ok jA,
          [Req.geocodeReq ("New York"), Req.pointsReq latA lonA,
            Req.forecastReq (Json.str "X")]) ∧
      jA.lookup ("location") = some (Json.str "New York, NY") ∧
      jA.lookup ("coordinates") =
        some (Json.obj [("latitude", Json.num latA), ("longitude", Json.num lonA)]) ∧
      jA.lookup ("forecast") = some (Json.arr ((List.range 5).map fmtPeriodA)) ∧
      ((List.range 5).map fmtPeriodA).length = 5 ∧
      formatPeriods (((List.range 7).map periodA).take 5) =
        Except.ok ((List.range 5).map fmtPeriodA)) := by
  constructor
  · intro env location j h hs
    obtain ⟨lat, lon, pd, furl, hg, hp, hst⟩ := resolver_success_char env location j h hs
    obtain ⟨fdj, pprops, rl, rlp, city, state, fprops, periodsJ, taken, fps,
      hd2, htr, h1, h2, h3, h4, h5, h6, h7, h8, h9, hj⟩ :=
      stage2_ok_success pd lat lon _ j hst hs
    subst hj
    exact ⟨lat, lon, pd, furl, fdj, pprops, rl, rlp, city, state, hg, hp, hd2,
      h1, h2, h3, h4, h5,
      successJson_lookup_location city state lat lon fps,
      successJson_lookup_coordinates city state lat lon fps⟩
  · exact ⟨by with_unfolding_all rfl, by with_unfolding_all rfl,
      by with_unfolding_all rfl, by with_unfolding_all rfl,
      by with_unfolding_all rfl, by with_unfolding_all rfl⟩

/-- C7, witness: the general location-field part applied to the
scenario-A stub. -/
theorem c7_witness :
    ∃ lat lon pd furl fdj pprops rl rlp city state,
      geocode_location envA ("New York") = Except.ok (some (lat, lon)) ∧
      points_post (make_request (envA.points lat lon)) = Stage1.cont pd furl ∧
      fetchForecastUrl envA furl = some fdj ∧
      pd.pyGet ("properties") (Json.obj []) = Except.ok pprops ∧
      pprops.pyGet ("relativeLocation") (Json.obj []) = Except.ok rl ∧
      rl.pyGet ("properties") (Json.obj []) = Except.ok rlp ∧
      rlp.pyGet ("city") (Json.str "Unknown") = Except.ok city ∧
      rlp.pyGet ("state") (Json.str "Unknown") = Except.ok state ∧
      jA.lookup ("location") = some (Json.str (pyStr city ++ ", " ++ pyStr state)) ∧
      jA.lookup ("coordinates") =
        some (Json.obj [("latitude", Json.num lat), ("longitude", Json.num lon)]) :=
  c7_location_and_scenario.1 envA ("New York") jA (by with_unfolding_all rfl) rfl

/-- C10: a whitespace-only `location` parameter is stripped to the empty
string, so the endpoint answers HTTP 400 with the same validation body
as for a missing parameter and issues no upstream request. -/
theorem c10_whitespace_location_400 (env : Upstream) (s : String)
    (h : ∀ c ∈ s.data, c.isWhitespace = true) :
    get_forecast env (some s) =
      (400, failureJson ("Please provide a location (city or state name)"), []) := by
  have hs : pyStrip s = "" := by
    unfold pyStrip
    rw [List.dropWhile_eq_nil_iff.mpr h]
    rfl
  unfold get_forecast
  simp [hs]

/-- One oracle fetch, projected to its visible answer, against a
state-independent answer function. -/
lemma stFetch_fst {σ : Type} (o : Oracle σ) (f : Req → HttpOutcome)
    (h : ∀ s r, (o.respond s r).1 = f r) (s : σ) (r : Req) :
    (stFetch o s r).1 = make_request (f r) := by
  simp [stFetch, h]

/-- The stateful geocoding step computes the pure one. -/
lemma st_geocode_fst {σ : Type} (o : Oracle σ) (f : Req → HttpOutcome)
    (h : ∀ s r, (o.respond s r).1 = f r) (s : σ) (location : String) :
    (st_geocode o s location).1 = geocode_location (envOf f) location := by
  simp [st_geocode, geocode_location, stFetch, h, envOf]

/-- The stateful forecast-URL fetch computes the pure one. -/
lemma stFetchUrl_fst {σ : Type} (o : Oracle σ) (f : Req → HttpOutcome)
    (h : ∀ s r, (o.respond s r).1 = f r) (s : σ) (u : Json) :
    (stFetchUrl o s u).1 = fetchForecastUrl (envOf f) u := by
  cases u <;> simp [stFetchUrl, fetchForecastUrl, stFetch, h, envOf]

/-- The stateful `try` block computes the pure one. -/
lemma st_try_fst {σ : Type} (o : Oracle σ) (f : Req → HttpOutcome)
    (h : ∀ s r, (o.respond s r).1 = f r) (s : σ) (lat lon : ℚ) :
    (st_try o s lat lon).1 = (try_block (envOf f) lat lon).1 := by
  unfold st_try try_block
  rw [stFetch_fst o f h]
  simp only [envOf]
  cases hp : points_post (make_request (f (Req.pointsReq lat lon))) with
  | exc e => simp only [hp]
  | fail j => simp only [hp]
  | cont pd furl =>
    simp only [hp]
    rw [stFetchUrl_fst o f h]
    simp only [envOf]

/-- The stateful resolver computes the pure one whenever the oracle's
visible answers do not depend on its state. -/
lemma st_resolver_fst {σ : Type} (o : Oracle σ) (f : Req → HttpOutcome)
    (h : ∀ s r, (o.respond s r).1 = f r) (s : σ) (location : String) :
    (st_resolver o s location).1 = (get_forecast_for_location (envOf f) location).1 := by
  unfold st_resolver get_forecast_for_location
  rw [st_geocode_fst o f h]
  cases hg : geocode_location (envOf f) location with
  | error e => simp
  | ok oc =>
    cases oc with
    | none => simp
    | some c =>
      obtain ⟨lat, lon⟩ := c
      simp only []
      rw [st_try_fst o f h]

/-- C9: against a stateful upstream backend whose visible answers are a
fixed function of the request (a deterministic stub), running the
resolver twice in succession — the second run starting from the
backend state the first one left behind — produces identical outcomes,
and each run equals the pure resolution against that answer function. -/
theorem c9_deterministic_backend {σ : Type} (o : Oracle σ) (f : Req → HttpOutcome)
    (h : ∀ s r, (o.respond s r).1 = f r) (s : σ) (location : String) :
    (st_resolver o ((st_resolver o s location).2) location).1 =
        (st_resolver o s location).1 ∧
    (st_resolver o s location).1 = (get_forecast_for_location (envOf f) location).1 := by
  constructor
  · rw [st_resolver_fst o f h, st_resolver_fst o f h]
  · exact st_resolver_fst o f h s location

/-- C9, witness: a counting oracle with state-independent answers gives
bit-identical back-to-back resolutions. -/
theorem c9_witness :
    (st_resolver detOracle ((st_resolver detOracle 0 ("Texas")).2) ("Texas")).1 =
      (st_resolver detOracle 0 ("Texas")).1 :=
  (c9_deterministic_backend detOracle (fun _ => HttpOutcome.netError)
    (fun _ _ => rfl) 0 ("Texas")).1

/-- C10, witness: three spaces. -/
theorem c10_witness :
    get_forecast envAtlantis (some "   ") =
      (400, failureJson ("Please provide a location (city or state name)"), []) :=
  c10_whitespace_location_400 envAtlantis ("   ") (by decide)

end Weather
